import Mathlib

/-!
Shallow embedding of the retrieval core of the e-discovery repository:
class `InsightEngine` in `app/insights.py`, together with the
`SectionRecord` row type of `app/storage.py` that it consumes.

External effects are made explicit parameters:

* the Section Store call `DocumentStorage.fetch_all_sections` (a sqlite
  query that may raise) is passed to each operation as a value of type
  `Except Unit (List SectionRecord)` — `Except.error ()` is the behaviour
  "this call raised";
* building the index, `TfidfVectorizer(stop_words="english")` followed by
  `.fit_transform(corpus)`, is passed as an oracle
  `fit : List String → Except Unit Unit` on the corpus (the list of
  section contents).  This call is NOT wrapped in `try` by the source and
  it can raise: sklearn raises `ValueError: empty vocabulary` whenever
  every document of the corpus reduces to stop words (or to tokens its
  tokenizer drops).  `refresh_index` therefore returns
  `Except InsightEngine InsightEngine`: `Except.ok s` is a normal return
  with final state `s`, and `Except.error s` is a propagated exception
  leaving the object in the partial state `s` — by then the source has
  already assigned `self._sections` and the fresh (truthy)
  `self._vectorizer`, while `self._matrix` keeps its previous, now stale,
  value;
* the sklearn query machinery (`self._vectorizer.transform` followed by
  `cosine_similarity(...).flatten()`, the two calls the source wraps in
  `try/except` inside `answer_query`) is passed as an oracle
  `sim : InsightEngine → String → Except Unit (List ℚ)` producing either
  one similarity score per indexed section, or a failure.  Scores are
  rationals in place of Python floats; no claim below depends on
  floating-point rounding;
* the mutable attributes of the Python object (`self._sections`,
  `self._vectorizer`, `self._matrix`, `self.max_results`) are threaded as
  an explicit state record.  The fitted vectorizer and matrix objects
  carry no data the claims inspect, only their presence matters
  (`self._vectorizer` is `None` or a truthy `TfidfVectorizer`;
  `self._matrix` is compared against `None`), so they are embedded as
  `Bool` presence flags set exactly where the source assigns or clears
  them.

`answer_query` likewise returns
`Except InsightEngine (List Insight × InsightEngine)`: the lazy
`self.refresh_index()` call sits OUTSIDE its `try` block, so an exception
raised while fitting propagates past the public boundary, which the
`Except.error` branch records; every other failure is caught and degrades
to an empty result, per the source.

Python's `str.strip` is modelled over the explicit character list of the
string (ASCII whitespace, the subset Lean's `Char.isWhitespace`
recognises), and Python's slice `ranked[:k]` — including its semantics at
negative `k` — is modelled by `py_take`.  `sorted(..., key=lambda item:
item[1], reverse=True)` is a stable descending sort on the second
component; it is embedded as `List.insertionSort` with the relation
`score_ge`, which produces the same list: the unique permutation that is
weakly descending on scores and keeps equal-scored entries in their input
order.
-/

namespace Insights

/-- Row type returned by `DocumentStorage.fetch_all_sections` in
`app/storage.py` (dataclass `SectionRecord`). -/
structure SectionRecord where
  document_title : String
  document_path : String
  heading : Option String
  content : String
  order_index : Int
deriving DecidableEq

/-- Output dataclass `Insight` of `app/insights.py`; `score` is the cosine
similarity the engine attached to the section. -/
structure Insight where
  answer : String
  citation : String
  snippet : String
  score : ℚ
deriving DecidableEq

/-- Mutable attributes of the Python `InsightEngine` object.  `vectorizer`
models `self._vectorizer is not None` (a `TfidfVectorizer` instance is
always truthy), `matrix` models `self._matrix is not None`. -/
structure InsightEngine where
  max_results : Int
  vectorizer : Bool
  matrix : Bool
  sections : List SectionRecord
deriving DecidableEq

/-- Default of the `max_results` keyword argument of
`InsightEngine.__init__`. -/
def default_max_results : Int := 3

/-- State produced by `InsightEngine.__init__`: no vectorizer, no matrix,
no sections. -/
def InsightEngine.new (max_results : Int) : InsightEngine :=
  { max_results := max_results, vectorizer := false, matrix := false, sections := [] }

/-- Python `s.strip()`: drop leading and trailing whitespace.  Modelled on
the character list of the string (Lean's `Char.isWhitespace` covers the
ASCII part of Python's whitespace class, enough for every claim). -/
def py_strip (s : String) : String :=
  ⟨((s.data.dropWhile Char.isWhitespace).reverse.dropWhile Char.isWhitespace).reverse⟩

/-- Python slice `l[:k]` for an `int` index `k`: the first `k` elements
when `k ≥ 0`, and all but the last `-k` elements when `k < 0`. -/
def py_take (k : Int) (l : List α) : List α :=
  if 0 ≤ k then l.take k.toNat else l.take ((l.length : Int) + k).toNat

/-- Comparison used by `sorted(zip(self._sections, scores), key=lambda
item: item[1], reverse=True)`: `a` may come before `b` iff `a`'s score is
at least `b`'s. -/
def score_ge (a b : SectionRecord × ℚ) : Prop := b.2 ≤ a.2

instance : DecidableRel score_ge :=
  fun a b => inferInstanceAs (Decidable (b.2 ≤ a.2))

instance : IsTotal (SectionRecord × ℚ) score_ge :=
  ⟨fun a b => le_total b.2 a.2⟩

instance : IsTrans (SectionRecord × ℚ) score_ge :=
  ⟨fun _ _ _ hab hbc => le_trans hbc hab⟩

/-- The `ranked` list of `answer_query`: a stable sort of the
(section, score) pairs, descending on the score, Python's
`sorted(..., reverse=True)`. -/
def sorted_desc (pairs : List (SectionRecord × ℚ)) : List (SectionRecord × ℚ) :=
  List.insertionSort score_ge pairs

/-- The literal `0.05` of `answer_query`, as the reduced fraction `1/20`
(written with an explicit numerator and denominator so that comparisons
against it compute by `decide`). -/
def relevance_floor : ℚ := ⟨1, 20, by decide, by decide⟩

/-- Method `InsightEngine.refresh_index`.  The `try` block around
`self.storage.fetch_all_sections()` becomes a match on the `fetch`
outcome: on a fetch failure the handler stores `[]`/`None`/`None` and the
method returns normally.  On success the sections are stored first; when
the corpus (the list of section contents) is non-empty the source assigns
a fresh vectorizer and then calls the unguarded `fit_transform`: if the
`fit` oracle succeeds, vectorizer and matrix are both set; if it raises,
the exception propagates (`Except.error`) with the partial state — new
sections, fresh truthy vectorizer, matrix left stale.  When the corpus is
empty, vectorizer and matrix are cleared. -/
def refresh_index (fetch : Except Unit (List SectionRecord))
    (fit : List String → Except Unit Unit)
    (e : InsightEngine) : Except InsightEngine InsightEngine :=
  match fetch with
  | Except.error _ =>
      Except.ok { e with sections := [], vectorizer := false, matrix := false }
  | Except.ok secs =>
      if (secs.map fun s => s.content).isEmpty then
        Except.ok { e with sections := secs, vectorizer := false, matrix := false }
      else
        match fit (secs.map fun s => s.content) with
        | Except.ok _ =>
            Except.ok { e with sections := secs, vectorizer := true, matrix := true }
        | Except.error _ =>
            Except.error { e with sections := secs, vectorizer := true }

/-- Guard `not self._vectorizer or self._matrix is None or not
self._sections`, used twice by `answer_query`. -/
def index_empty (e : InsightEngine) : Bool :=
  !e.vectorizer || !e.matrix || e.sections.isEmpty

/-- Lazy-refresh step of `answer_query`: `refresh_index` runs exactly when
the `index_empty` guard fires, and a raise inside it propagates (the call
sits outside the `try` block of `answer_query`). -/
def lazy_state (fetch : Except Unit (List SectionRecord))
    (fit : List String → Except Unit Unit)
    (e : InsightEngine) : Except InsightEngine InsightEngine :=
  if index_empty e then refresh_index fetch fit e else Except.ok e

/-- Method `InsightEngine._build_citation`. The heading part is added only
when `section.heading` is truthy, i.e. present and non-empty. -/
def build_citation (s : SectionRecord) : String :=
  let heading :=
    match s.heading with
    | some h => if h = "" then "" else " | " ++ h
    | none => ""
  s.document_title ++ heading ++ " (" ++ s.document_path ++ ")"

/-- Loop body of `answer_query` building one `Insight` from a surviving
(section, score) pair. -/
def build_insight (s : SectionRecord) (score : ℚ) : Insight :=
  let citation := build_citation s
  let snippet := py_strip s.content
  { answer := "Source: " ++ citation ++ "\n" ++ "Extract: " ++ snippet
    citation := citation
    snippet := snippet
    score := score }

/-- Tail of `answer_query` after the scores are computed: sort the
(section, score) pairs by descending score, slice off the first
`max_results`, and keep — as `Insight`s — those at or above the relevance
floor (the loop `for section, score in ranked[: self.max_results]: if
score < 0.05: continue; ... append`). -/
def rank_results (max_results : Int) (pairs : List (SectionRecord × ℚ)) : List Insight :=
  (py_take max_results (sorted_desc pairs)).filterMap fun p =>
    if p.2 < relevance_floor then none else some (build_insight p.1 p.2)

/-- Method `InsightEngine.answer_query`.  `Except.ok` carries the insight
list and the final state; `Except.error` carries the state left by an
exception the lazy refresh raised, which the method does not catch.  The
branches mirror the source in order: blank-query early return; lazy
refresh when the index is empty (raise propagates); empty return when the
index is still empty; the `try`-wrapped scoring, whose failure returns
empty; ranking, slicing, thresholding. -/
def answer_query (fetch : Except Unit (List SectionRecord))
    (fit : List String → Except Unit Unit)
    (sim : InsightEngine → String → Except Unit (List ℚ))
    (e : InsightEngine) (query : String) :
    Except InsightEngine (List Insight × InsightEngine) :=
  if py_strip query = "" then Except.ok ([], e)
  else
    match lazy_state fetch fit e with
    | Except.error s => Except.error s
    | Except.ok e1 =>
        if index_empty e1 then Except.ok ([], e1)
        else
          match sim e1 query with
          | Except.error _ => Except.ok ([], e1)
          | Except.ok scores =>
              Except.ok
                (rank_results e1.max_results (e1.sections.zip scores), e1)

/-- Concrete section used to exercise the theorems on explicit inputs. -/
def sample_a : SectionRecord :=
  { document_title := "Alpha", document_path := "/docs/a.txt", heading := none,
    content := "alpha content", order_index := 0 }

/-- Concrete section used to exercise the theorems on explicit inputs. -/
def sample_b : SectionRecord :=
  { document_title := "Beta", document_path := "/docs/b.txt", heading := some "Intro",
    content := "beta content", order_index := 1 }

/-- Concrete section used to exercise the theorems on explicit inputs. -/
def sample_c : SectionRecord :=
  { document_title := "Gamma", document_path := "/docs/c.txt", heading := none,
    content := "gamma content", order_index := 2 }

/-- Concrete section used to exercise the theorems on explicit inputs. -/
def sample_d : SectionRecord :=
  { document_title := "Delta", document_path := "/docs/d.txt", heading := none,
    content := "delta content", order_index := 3 }

/-- Concrete section used to exercise the theorems on explicit inputs. -/
def sample_e : SectionRecord :=
  { document_title := "Epsilon", document_path := "/docs/e.txt", heading := none,
    content := "epsilon content", order_index := 4 }

/-- Engine with a built index over the five sample sections and a result
cap of two, the configuration named by the result-cap test of the spec. -/
def cap_engine : InsightEngine :=
  { max_results := 2, vectorizer := true, matrix := true,
    sections := [sample_a, sample_b, sample_c, sample_d, sample_e] }

/-- Engine with a built index over one sample section and the default
cap. -/
def built_engine : InsightEngine :=
  { max_results := 3, vectorizer := true, matrix := true,
    sections := [sample_a] }

/-- A stored section whose content is nothing but English stop words: a
legal store row (`parser.py` keeps any non-blank paragraph) on which the
TF-IDF vocabulary comes out empty. -/
def stopword_section : SectionRecord :=
  { document_title := "Memo", document_path := "/docs/memo.txt", heading := none,
    content := "of the and", order_index := 0 }

/-- Behaviour of `TfidfVectorizer(stop_words="english").fit_transform` on
the corpus of `stopword_section`: sklearn raises `ValueError: empty
vocabulary; perhaps the documents only contain stop words`.  The oracle
fails exactly on that corpus and succeeds elsewhere. -/
def fit_empty_vocabulary : List String → Except Unit Unit :=
  fun corpus => if corpus = ["of the and"] then Except.error () else Except.ok ()

/-- Sanity check: `relevance_floor` is the numeral `0.05`. -/
theorem relevance_floor_eq_five_hundredths : relevance_floor = 5 / 100 := by
  rw [relevance_floor, Rat.mk'_eq_divInt, Rat.divInt_eq_div]
  norm_num

/-- A slice `l[:k]` is a sublist of `l`, whatever the sign of `k`. -/
theorem py_take_sublist (k : Int) (l : List α) : (py_take k l).Sublist l := by
  unfold py_take
  split
  · exact List.take_sublist _ _
  · exact List.take_sublist _ _

/-- The stable descending sort is a permutation of its input. -/
theorem sorted_desc_perm (pairs : List (SectionRecord × ℚ)) : (sorted_desc pairs).Perm pairs :=
  List.perm_insertionSort score_ge pairs

/-- The stable descending sort is weakly descending on scores. -/
theorem sorted_desc_pairwise (pairs : List (SectionRecord × ℚ)) :
    (sorted_desc pairs).Pairwise score_ge :=
  List.sorted_insertionSort score_ge pairs

/-- The threshold loop of `answer_query` is the composition of a filter by
the relevance floor and the insight constructor. -/
theorem filterMap_threshold (l : List (SectionRecord × ℚ)) :
    (l.filterMap fun p =>
        if p.2 < relevance_floor then none else some (build_insight p.1 p.2)) =
      (l.filter fun p => !decide (p.2 < relevance_floor)).map fun p =>
        build_insight p.1 p.2 := by
  induction l with
  | nil => rfl
  | cons a l ih =>
      by_cases h : a.2 < relevance_floor
      · simp [List.filterMap_cons, List.filter_cons, h, ih]
      · simp [List.filterMap_cons, List.filter_cons, h, ih]

/-- On a list that is weakly descending on scores, keeping the entries at
or above the floor commutes with truncation: the qualifying entries form a
prefix, so slicing first and filtering after — as the source does — yields
the first `n` qualifying entries. -/
theorem take_filter_of_pairwise (f : ℚ) :
    ∀ (l : List (SectionRecord × ℚ)), l.Pairwise score_ge → ∀ n : Nat,
      (l.take n).filter (fun p => !decide (p.2 < f)) =
        (l.filter fun p => !decide (p.2 < f)).take n := by
  intro l
  induction l with
  | nil => intro _ n; simp
  | cons a l ih =>
      intro hp n
      rcases List.pairwise_cons.mp hp with ⟨ha, hl⟩
      cases n with
      | zero => simp
      | succ n =>
          by_cases h : a.2 < f
          · have hpf : ∀ p ∈ l, p.2 < f := fun p hpl =>
              lt_of_le_of_lt (ha p hpl) h
            have h1 : (l.filter fun p => !decide (p.2 < f)) = [] :=
              List.filter_eq_nil_iff.mpr fun p hpl => by simp [hpf p hpl]
            have h2 : ((l.take n).filter fun p => !decide (p.2 < f)) = [] :=
              List.filter_eq_nil_iff.mpr fun p hpl => by
                simp [hpf p (List.take_subset n l hpl)]
            simp [List.take_succ_cons, List.filter_cons, h, h1, h2]
          · rw [List.take_succ_cons, List.filter_cons_of_pos, List.filter_cons_of_pos,
              List.take_succ_cons, ih hl n]
            · simp [h]
            · simp [h]

/-- Every insight the ranking step emits sits at or above the relevance
floor. -/
theorem score_of_mem_rank_results {k : Int} {pairs : List (SectionRecord × ℚ)}
    {i : Insight} (h : i ∈ rank_results k pairs) : relevance_floor ≤ i.score := by
  unfold rank_results at h
  rcases List.mem_filterMap.mp h with ⟨p, _, hsome⟩
  by_cases hlt : p.2 < relevance_floor
  · simp [hlt] at hsome
  · rw [if_neg hlt] at hsome
    cases hsome
    simpa [build_insight] using le_of_not_lt hlt

/-- With a non-negative cap, the ranking step emits at most `k` insights. -/
theorem length_rank_results {k : Int} (hk : 0 ≤ k) (pairs : List (SectionRecord × ℚ)) :
    (rank_results k pairs).length ≤ k.toNat := by
  unfold rank_results py_take
  rw [if_pos hk]
  exact le_trans (List.length_filterMap_le _ _) (List.length_take_le _ _)

/-- With a non-negative cap, the ranking step returns exactly the first
`k` of the qualifying (floor-meeting) pairs in descending score order. -/
theorem rank_results_top_qualifying {k : Int} (hk : 0 ≤ k)
    (pairs : List (SectionRecord × ℚ)) :
    rank_results k pairs =
      (((sorted_desc pairs).filter fun p => !decide (p.2 < relevance_floor)).take
          k.toNat).map fun p => build_insight p.1 p.2 := by
  unfold rank_results py_take
  rw [if_pos hk, filterMap_threshold,
    take_filter_of_pairwise relevance_floor _ (sorted_desc_pairwise pairs)]

/-- Scores of the insights the ranking step emits are weakly
descending. -/
theorem rank_results_pairwise (k : Int) (pairs : List (SectionRecord × ℚ)) :
    (rank_results k pairs).Pairwise fun a b => b.score ≤ a.score := by
  unfold rank_results
  rw [filterMap_threshold]
  refine List.pairwise_map.mpr ?_
  have h1 : (py_take k (sorted_desc pairs)).Pairwise score_ge :=
    (sorted_desc_pairwise pairs).sublist (py_take_sublist _ _)
  have h2 : ((py_take k (sorted_desc pairs)).filter fun p =>
      !decide (p.2 < relevance_floor)).Pairwise score_ge :=
    h1.sublist (List.filter_sublist _)
  exact h2.imp fun hab => by simpa [build_insight, score_ge] using hab

/-- A fetch failure is caught inside `refresh_index`: the method returns
normally with the index reset to empty, whatever the fit oracle and the
prior state. -/
theorem refresh_index_fetch_failure_resets (fit : List String → Except Unit Unit)
    (e : InsightEngine) :
    refresh_index (Except.error ()) fit e =
      Except.ok { e with sections := [], vectorizer := false, matrix := false } := rfl

/-- A normal return of `refresh_index` keeps the configured cap. -/
theorem refresh_index_ok_max (fetch : Except Unit (List SectionRecord))
    (fit : List String → Except Unit Unit) (e s : InsightEngine)
    (h : refresh_index fetch fit e = Except.ok s) :
    s.max_results = e.max_results := by
  cases fetch with
  | error u =>
      simp [refresh_index] at h
      rw [← h]
  | ok secs =>
      by_cases hc : (secs.map fun x => x.content).isEmpty
      · simp [refresh_index, hc] at h
        rw [← h]
      · cases hf : fit (secs.map fun x => x.content) with
        | error u => simp [refresh_index, hc, hf] at h
        | ok u =>
            simp [refresh_index, hc, hf] at h
            rw [← h]

/-- A normal return of the lazy-refresh step keeps the configured cap. -/
theorem lazy_state_ok_max (fetch : Except Unit (List SectionRecord))
    (fit : List String → Except Unit Unit) (e s : InsightEngine)
    (h : lazy_state fetch fit e = Except.ok s) :
    s.max_results = e.max_results := by
  unfold lazy_state at h
  by_cases h0 : index_empty e
  · rw [if_pos h0] at h
    exact refresh_index_ok_max fetch fit e s h
  · rw [if_neg h0] at h
    rw [← Except.ok.inj h]

/-- If a refresh returns normally but leaves the index empty, refreshing
again from the same store snapshot returns normally with the same
state. -/
theorem refresh_index_ok_empty_idem (fetch : Except Unit (List SectionRecord))
    (fit : List String → Except Unit Unit) (e s : InsightEngine)
    (h : refresh_index fetch fit e = Except.ok s) (hs : index_empty s = true) :
    refresh_index fetch fit s = Except.ok s := by
  cases fetch with
  | error u =>
      simp [refresh_index] at h ⊢
      rw [← h]
  | ok secs =>
      by_cases hc : (secs.map fun x => x.content).isEmpty
      · simp [refresh_index, hc] at h ⊢
        rw [← h]
      · cases hf : fit (secs.map fun x => x.content) with
        | error u => simp [refresh_index, hc, hf] at h
        | ok u =>
            simp [refresh_index, hc, hf] at h
            rw [← h] at hs
            simp [index_empty] at hs
            cases hsec : secs with
            | nil => rw [hsec] at hc; simp at hc
            | cons a l => rw [hsec] at hs; simp at hs

/-- A normal return of the lazy-refresh step is a fixed point of the
lazy-refresh step. -/
theorem lazy_state_ok_idem (fetch : Except Unit (List SectionRecord))
    (fit : List String → Except Unit Unit) (e s : InsightEngine)
    (h : lazy_state fetch fit e = Except.ok s) :
    lazy_state fetch fit s = Except.ok s := by
  unfold lazy_state at h ⊢
  by_cases h0 : index_empty e
  · rw [if_pos h0] at h
    by_cases h1 : index_empty s
    · rw [if_pos h1]
      exact refresh_index_ok_empty_idem fetch fit e s h h1
    · rw [if_neg h1]
  · rw [if_neg h0] at h
    have he := Except.ok.inj h
    rw [← he, if_neg h0]

/-- A normal return of `answer_query` carries either an empty insight
list or the output of the ranking step on the post-refresh sections
zipped with a successfully computed score list. -/
theorem answer_query_ok_cases (fetch : Except Unit (List SectionRecord))
    (fit : List String → Except Unit Unit)
    (sim : InsightEngine → String → Except Unit (List ℚ))
    (e : InsightEngine) (q : String) (r : List Insight × InsightEngine)
    (hok : answer_query fetch fit sim e q = Except.ok r) :
    r.1 = [] ∨
    ∃ e1 scores, lazy_state fetch fit e = Except.ok e1 ∧
      sim e1 q = Except.ok scores ∧
      r.1 = rank_results e1.max_results (e1.sections.zip scores) := by
  by_cases hq : py_strip q = ""
  · left
    simp [answer_query, hq] at hok
    rw [← hok]
  · cases hlz : lazy_state fetch fit e with
    | error s => simp [answer_query, hq, hlz] at hok
    | ok e1 =>
        by_cases hidx : index_empty e1
        · left
          simp [answer_query, hq, hlz, hidx] at hok
          rw [← hok]
        · cases hs : sim e1 q with
          | error u =>
              left
              simp [answer_query, hq, hlz, hidx, hs] at hok
              rw [← hok]
          | ok scores =>
              right
              refine ⟨e1, scores, rfl, hs, ?_⟩
              simp [answer_query, hq, hlz, hidx, hs] at hok
              rw [← hok]

/-- A transform/similarity failure is caught inside `answer_query`: when
the lazy refresh completed normally and the oracle fails, the call returns
normally with an empty insight list. -/
theorem answer_query_sim_failure_swallowed (fetch : Except Unit (List SectionRecord))
    (fit : List String → Except Unit Unit)
    (sim : InsightEngine → String → Except Unit (List ℚ))
    (e e1 : InsightEngine) (q : String)
    (hlz : lazy_state fetch fit e = Except.ok e1)
    (hs : sim e1 q = Except.error ()) :
    ∃ s, answer_query fetch fit sim e q = Except.ok ([], s) := by
  by_cases hq : py_strip q = ""
  · exact ⟨e, by simp [answer_query, hq]⟩
  · by_cases hidx : index_empty e1
    · exact ⟨e1, by simp [answer_query, hq, hlz, hidx]⟩
    · exact ⟨e1, by simp [answer_query, hq, hlz, hidx, hs]⟩

/-- C1 (code bug): the claim — and §7 of the spec — say `refresh_index`
never raises for any Section Store state, but the source guards only the
fetch with `try/except`; the index-fitting call at `insights.py:50` is
unguarded and sklearn raises `ValueError: empty vocabulary` on a corpus
that reduces to stop words.  Evaluated at such a store state (one section
with content `"of the and"`), the embedded `refresh_index` propagates the
failure, leaving the partial state the source leaves: sections and the
fresh truthy vectorizer assigned, the matrix stale. -/
theorem refresh_index_fit_failure_raises :
    refresh_index (Except.ok [stopword_section]) fit_empty_vocabulary
        (InsightEngine.new 3) =
      Except.error
        { max_results := 3, vectorizer := true, matrix := false,
          sections := [stopword_section] } := rfl

/-- C2 (code bug): the claim — and §7 of the spec — say `answer_query`
returns a (possibly empty) list for every query and index state, but the
lazy `self.refresh_index()` at `insights.py:61` sits outside the `try`
block of `answer_query`, so a `ValueError` raised while fitting the index
propagates past the public boundary.  Evaluated at an empty index, a
non-blank query and the stop-word-only store of C1, the embedded
`answer_query` propagates the raise instead of returning a list. -/
theorem answer_query_refresh_raise_propagates :
    answer_query (Except.ok [stopword_section]) fit_empty_vocabulary
        (fun _ _ => Except.ok []) (InsightEngine.new 3) "what does the memo say" =
      Except.error
        { max_results := 3, vectorizer := true, matrix := false,
          sections := [stopword_section] } := rfl

/-- C3: relevance floor — every insight a normally returning
`answer_query` call carries has a similarity score at or above `0.05`; a
section scored strictly below the floor never appears, whatever the cap
and however few sections qualify. -/
theorem answer_query_relevance_floor (fetch : Except Unit (List SectionRecord))
    (fit : List String → Except Unit Unit)
    (sim : InsightEngine → String → Except Unit (List ℚ))
    (e : InsightEngine) (q : String) (r : List Insight × InsightEngine)
    (hok : answer_query fetch fit sim e q = Except.ok r) :
    ∀ i ∈ r.1, relevance_floor ≤ i.score := by
  intro i hi
  rcases answer_query_ok_cases fetch fit sim e q r hok with hnil | ⟨e1, scores, _, _, hcase⟩
  · rw [hnil] at hi
    cases hi
  · rw [hcase] at hi
    exact score_of_mem_rank_results hi

/-- Witness for C3: a concrete run returning one insight, whose score the
theorem bounds by the floor. -/
theorem answer_query_relevance_floor_witness :
    relevance_floor ≤ (build_insight sample_a 1).score :=
  answer_query_relevance_floor (Except.ok [sample_a]) (fun _ => Except.ok ())
    (fun _ _ => Except.ok [1]) built_engine "hello"
    ([build_insight sample_a 1], built_engine) rfl
    (build_insight sample_a 1) (by decide)

/-- C6: citation format — the insight built from a record cites the
document title, then ` | ` and the heading when one is present (non-empty),
then the document path in parentheses. -/
theorem build_citation_format :
    (∀ (t p h c : String) (i : Int) (sc : ℚ), ¬ h = "" →
      (build_insight
          { document_title := t, document_path := p, heading := some h,
            content := c, order_index := i } sc).citation =
        t ++ " | " ++ h ++ " (" ++ p ++ ")") ∧
    (∀ (t p c : String) (i : Int) (sc : ℚ),
      (build_insight
          { document_title := t, document_path := p, heading := none,
            content := c, order_index := i } sc).citation =
        t ++ " (" ++ p ++ ")") := by
  constructor
  · intro t p h c i sc hne
    simp [build_insight, build_citation, hne, String.append_assoc]
  · intro t p c i sc
    simp [build_insight, build_citation]

/-- Witness for C6 at the records of the spec's citation example. -/
theorem build_citation_format_witness :
    (build_insight
        { document_title := "Memo", document_path := "/docs/memo.txt",
          heading := some "Page 2", content := "c", order_index := 0 } 1).citation =
      "Memo | Page 2 (/docs/memo.txt)" ∧
    (build_insight
        { document_title := "Memo", document_path := "/docs/memo.txt",
          heading := none, content := "c", order_index := 0 } 1).citation =
      "Memo (/docs/memo.txt)" := by
  constructor
  · rw [build_citation_format.1 "Memo" "/docs/memo.txt" "Page 2" "c" 0 1 (by decide)]
    decide
  · rw [build_citation_format.2 "Memo" "/docs/memo.txt" "c" 0 1]
    decide

/-- C7: a query that is empty after stripping whitespace returns normally
with the empty list at once, leaving the engine state untouched (no
refresh, no index access), for every store, fit oracle, similarity oracle
and index state. -/
theorem answer_query_blank (fetch : Except Unit (List SectionRecord))
    (fit : List String → Except Unit Unit)
    (sim : InsightEngine → String → Except Unit (List ℚ))
    (e : InsightEngine) (q : String) (h : py_strip q = "") :
    answer_query fetch fit sim e q = Except.ok ([], e) := by
  simp [answer_query, h]

/-- Witness for C7 on a whitespace-only query against a failing store and
a failing fit oracle: neither failure is ever observed. -/
theorem answer_query_blank_witness :
    answer_query (Except.error ()) (fun _ => Except.error ())
        (fun _ _ => Except.error ()) (InsightEngine.new 3) "  \t " =
      Except.ok ([], InsightEngine.new 3) :=
  answer_query_blank _ _ _ _ _ (by decide)

/-- C4: result cap — with a non-negative cap, every normally returning
`answer_query` call carries at most `max_results` insights, and on the
successful scoring path the call returns exactly the first `max_results`
of the floor-meeting pairs in descending score order (so, the
highest-scoring qualifying sections). -/
theorem answer_query_result_cap (fetch : Except Unit (List SectionRecord))
    (fit : List String → Except Unit Unit)
    (sim : InsightEngine → String → Except Unit (List ℚ))
    (e : InsightEngine) (q : String) (scores : List ℚ)
    (hmax : 0 ≤ e.max_results) :
    (∀ r, answer_query fetch fit sim e q = Except.ok r →
      r.1.length ≤ e.max_results.toNat) ∧
    (∀ e1, ¬ py_strip q = "" → lazy_state fetch fit e = Except.ok e1 →
      index_empty e1 = false → sim e1 q = Except.ok scores →
      answer_query fetch fit sim e q =
        Except.ok ((((sorted_desc (e1.sections.zip scores)).filter fun p =>
            !decide (p.2 < relevance_floor)).take e.max_results.toNat).map
          (fun p => build_insight p.1 p.2), e1)) := by
  constructor
  · intro r hok
    rcases answer_query_ok_cases fetch fit sim e q r hok with hnil | ⟨e1, scores2, hlz, _, hcase⟩
    · simp [hnil]
    · rw [hcase, lazy_state_ok_max fetch fit e e1 hlz]
      exact length_rank_results hmax _
  · intro e1 hq hlz hidx hsim
    have hres : answer_query fetch fit sim e q =
        Except.ok (rank_results e1.max_results (e1.sections.zip scores), e1) := by
      simp [answer_query, hq, hlz, hidx, hsim]
    rw [hres, lazy_state_ok_max fetch fit e e1 hlz, rank_results_top_qualifying hmax]

/-- Witness for C4: cap of two over five qualifying sections, exactly the
two highest-scoring returned. -/
theorem answer_query_result_cap_witness :
    ([build_insight sample_d 9, build_insight sample_b 5],
        cap_engine).1.length ≤ cap_engine.max_results.toNat ∧
    answer_query (Except.ok []) (fun _ => Except.ok ())
        (fun _ _ => Except.ok [1, 5, 3, 9, 2]) cap_engine "query" =
      Except.ok ((((sorted_desc (cap_engine.sections.zip [1, 5, 3, 9, 2])).filter fun p =>
          !decide (p.2 < relevance_floor)).take cap_engine.max_results.toNat).map
        (fun p => build_insight p.1 p.2), cap_engine) :=
  ⟨(answer_query_result_cap (Except.ok []) (fun _ => Except.ok ())
      (fun _ _ => Except.ok [1, 5, 3, 9, 2]) cap_engine "query" [1, 5, 3, 9, 2]
      (by decide)).1 ([build_insight sample_d 9, build_insight sample_b 5], cap_engine)
      rfl,
   (answer_query_result_cap (Except.ok []) (fun _ => Except.ok ())
      (fun _ _ => Except.ok [1, 5, 3, 9, 2]) cap_engine "query" [1, 5, 3, 9, 2]
      (by decide)).2 cap_engine (by decide) rfl rfl rfl⟩

/-- C5: ranking order — the insight list of every normally returning
`answer_query` call is ordered by score descending, and the sort behind it
is stable: any pair of (section, score) entries in original fetch order
whose first member scores at least the second keeps that order in the
sorted ranking, so equal-score sections stay in fetch order. -/
theorem answer_query_ranking (fetch : Except Unit (List SectionRecord))
    (fit : List String → Except Unit Unit)
    (sim : InsightEngine → String → Except Unit (List ℚ))
    (e : InsightEngine) (q : String) (scores : List ℚ) :
    (∀ r, answer_query fetch fit sim e q = Except.ok r →
      r.1.Pairwise fun a b => b.score ≤ a.score) ∧
    (∀ e1, lazy_state fetch fit e = Except.ok e1 →
      ∀ a b : SectionRecord × ℚ,
        [a, b].Sublist (e1.sections.zip scores) → b.2 ≤ a.2 →
        [a, b].Sublist (sorted_desc (e1.sections.zip scores))) := by
  constructor
  · intro r hok
    rcases answer_query_ok_cases fetch fit sim e q r hok with hnil | ⟨e1, scores2, _, _, hcase⟩
    · simp [hnil]
    · rw [hcase]
      exact rank_results_pairwise _ _
  · intro e1 _ a b hab hge
    show [a, b].Sublist (List.insertionSort score_ge _)
    exact List.pair_sublist_insertionSort hge hab

/-- Witness for C5: a tie at score five between the second and third
sample sections stays in fetch order inside the sorted ranking, and the
concrete result list is score-descending. -/
theorem answer_query_ranking_witness :
    ([build_insight sample_d 9, build_insight sample_b 5],
        cap_engine).1.Pairwise (fun a b => b.score ≤ a.score) ∧
    [(sample_b, (5 : ℚ)), (sample_c, (5 : ℚ))].Sublist
      (sorted_desc (cap_engine.sections.zip [1, 5, 5, 9, 2])) :=
  ⟨(answer_query_ranking (Except.ok []) (fun _ => Except.ok ())
      (fun _ _ => Except.ok [1, 5, 5, 9, 2]) cap_engine "query" [1, 5, 5, 9, 2]).1
      ([build_insight sample_d 9, build_insight sample_b 5], cap_engine) rfl,
   (answer_query_ranking (Except.ok []) (fun _ => Except.ok ())
      (fun _ _ => Except.ok [1, 5, 5, 9, 2]) cap_engine "query" [1, 5, 5, 9, 2]).2
      cap_engine rfl (sample_b, 5) (sample_c, 5) (by decide) (by decide)⟩

/-- C8: empty-index lazy refresh — on a non-blank query against an empty
or absent index, exactly one refresh runs; when that refresh returns
normally with state `s`, the call returns normally with final state `s`,
and if the index is still empty after the refresh (for instance the store
holds zero sections) the insight list is empty, with no error. -/
theorem answer_query_lazy_refresh (fetch : Except Unit (List SectionRecord))
    (fit : List String → Except Unit Unit)
    (sim : InsightEngine → String → Except Unit (List ℚ))
    (e : InsightEngine) (q : String) (s : InsightEngine)
    (hq : ¬ py_strip q = "") (hempty : index_empty e = true)
    (hrefresh : refresh_index fetch fit e = Except.ok s) :
    (∃ res, answer_query fetch fit sim e q = Except.ok (res, s)) ∧
    (s.sections = [] → answer_query fetch fit sim e q = Except.ok ([], s)) := by
  have hlz : lazy_state fetch fit e = Except.ok s := by
    simp [lazy_state, hempty, hrefresh]
  constructor
  · by_cases hidx : index_empty s
    · exact ⟨[], by simp [answer_query, hq, hlz, hidx]⟩
    · cases hs : sim s q with
      | error u => exact ⟨[], by simp [answer_query, hq, hlz, hidx, hs]⟩
      | ok scores =>
          exact ⟨rank_results s.max_results (s.sections.zip scores),
            by simp [answer_query, hq, hlz, hidx, hs]⟩
  · intro hnil
    have hie : index_empty s = true := by simp [index_empty, hnil]
    simp [answer_query, hq, hlz, hie]

/-- Witness for C8: a fresh engine queried against a store with zero
sections refreshes once and answers normally with the empty list. -/
theorem answer_query_lazy_refresh_witness :
    (∃ res, answer_query (Except.ok []) (fun _ => Except.ok ())
        (fun _ _ => Except.ok []) (InsightEngine.new 3) "anything" =
      Except.ok (res, InsightEngine.new 3)) ∧
    answer_query (Except.ok []) (fun _ => Except.ok ())
        (fun _ _ => Except.ok []) (InsightEngine.new 3) "anything" =
      Except.ok ([], InsightEngine.new 3) :=
  ⟨(answer_query_lazy_refresh (Except.ok []) (fun _ => Except.ok ())
      (fun _ _ => Except.ok []) (InsightEngine.new 3) "anything"
      (InsightEngine.new 3) (by decide) (by decide) rfl).1,
   (answer_query_lazy_refresh (Except.ok []) (fun _ => Except.ok ())
      (fun _ _ => Except.ok []) (InsightEngine.new 3) "anything"
      (InsightEngine.new 3) (by decide) (by decide) rfl).2 rfl⟩

/-- C9: determinism — for a fixed store snapshot, fit oracle and scoring
oracle, a call that returned normally repeats: running the same query
again from the state the first call returned yields the very same insight
list (same answers, citations, snippets and scores, in the same order)
and the same final state. -/
theorem answer_query_deterministic (fetch : Except Unit (List SectionRecord))
    (fit : List String → Except Unit Unit)
    (sim : InsightEngine → String → Except Unit (List ℚ))
    (e : InsightEngine) (q : String) (r : List Insight × InsightEngine)
    (hok : answer_query fetch fit sim e q = Except.ok r) :
    answer_query fetch fit sim r.2 q = Except.ok r := by
  by_cases hq : py_strip q = ""
  · simp [answer_query, hq] at hok
    rw [← hok]
    simp [answer_query, hq]
  · cases hlz : lazy_state fetch fit e with
    | error s => simp [answer_query, hq, hlz] at hok
    | ok e1 =>
        have hlz1 : lazy_state fetch fit e1 = Except.ok e1 :=
          lazy_state_ok_idem fetch fit e e1 hlz
        by_cases hidx : index_empty e1
        · simp [answer_query, hq, hlz, hidx] at hok
          rw [← hok]
          simp [answer_query, hq, hlz1, hidx]
        · cases hs : sim e1 q with
          | error u =>
              simp [answer_query, hq, hlz, hidx, hs] at hok
              rw [← hok]
              simp [answer_query, hq, hlz1, hidx, hs]
          | ok scores =>
              simp [answer_query, hq, hlz, hidx, hs] at hok
              rw [← hok]
              simp [answer_query, hq, hlz1, hidx, hs]

/-- Witness for C9: repeating a concrete successful query from the state
it returned yields the identical result. -/
theorem answer_query_deterministic_witness :
    answer_query (Except.ok [sample_a]) (fun _ => Except.ok ())
        (fun _ _ => Except.ok [1])
        (([build_insight sample_a 1], built_engine) :
          List Insight × InsightEngine).2 "hello" =
      Except.ok ([build_insight sample_a 1], built_engine) :=
  answer_query_deterministic (Except.ok [sample_a]) (fun _ => Except.ok ())
    (fun _ _ => Except.ok [1]) built_engine "hello"
    ([build_insight sample_a 1], built_engine) rfl

/-- C10: a negative `max_results` breaks the cap — Python's
`ranked[:max_results]` with a negative bound drops only the last
`|max_results|` ranked entries, so with `max_results = -1`, a built index
of at least two sections and floor-meeting scores for all of them, the
call returns normally with a non-empty result rather than capped at
`max(0, max_results) = 0`. -/
theorem answer_query_negative_cap (fetch : Except Unit (List SectionRecord))
    (fit : List String → Except Unit Unit)
    (sim : InsightEngine → String → Except Unit (List ℚ))
    (e : InsightEngine) (q : String) (scores : List ℚ)
    (hmax : e.max_results = -1)
    (hvec : e.vectorizer = true) (hmat : e.matrix = true)
    (h2 : 2 ≤ e.sections.length)
    (hlen : scores.length = e.sections.length)
    (hq : ¬ py_strip q = "")
    (hfloor : ∀ sc ∈ scores, relevance_floor ≤ sc)
    (hsim : sim e q = Except.ok scores) :
    ∃ res, answer_query fetch fit sim e q = Except.ok (res, e) ∧ ¬ res = [] := by
  have hne : e.sections ≠ [] := by
    intro hnil
    rw [hnil] at h2
    simp at h2
  have hsecne : e.sections.isEmpty = false := by
    cases hsec : e.sections with
    | nil => exact absurd hsec hne
    | cons a l => rfl
  have hie : index_empty e = false := by
    simp [index_empty, hvec, hmat, hsecne]
  have hlz : lazy_state fetch fit e = Except.ok e := by
    simp [lazy_state, hie]
  have hres : answer_query fetch fit sim e q =
      Except.ok (rank_results e.max_results (e.sections.zip scores), e) := by
    simp [answer_query, hq, hlz, hie, hsim]
  refine ⟨rank_results e.max_results (e.sections.zip scores), hres, ?_⟩
  rw [hmax]
  have hplen : (e.sections.zip scores).length = e.sections.length := by
    rw [List.length_zip, hlen, Nat.min_self]
  have hall : ∀ p ∈ py_take (-1) (sorted_desc (e.sections.zip scores)),
      (!decide (p.2 < relevance_floor)) = true := by
    intro p hp
    have hp2 : p ∈ sorted_desc (e.sections.zip scores) :=
      (py_take_sublist _ _).subset hp
    have hp3 : p ∈ e.sections.zip scores :=
      (sorted_desc_perm (e.sections.zip scores)).mem_iff.mp hp2
    have hp4 : p.2 ∈ scores := (List.of_mem_zip hp3).2
    have hnl : ¬ p.2 < relevance_floor := not_lt.mpr (hfloor p.2 hp4)
    simp [hnl]
  unfold rank_results
  rw [filterMap_threshold, List.filter_eq_self.mpr hall]
  intro hmapnil
  have hlen2 : (py_take (-1) (sorted_desc (e.sections.zip scores))).length = 0 := by
    simpa using congrArg List.length hmapnil
  have hsd : (sorted_desc (e.sections.zip scores)).length = e.sections.length := by
    rw [(sorted_desc_perm (e.sections.zip scores)).length_eq, hplen]
  unfold py_take at hlen2
  rw [if_neg (by decide), List.length_take] at hlen2
  rw [hsd] at hlen2
  omega

/-- Witness for C10: two floor-meeting sections and a cap of minus one
yield a normal return with a non-empty result. -/
theorem answer_query_negative_cap_witness :
    ∃ res, answer_query (Except.ok []) (fun _ => Except.ok ())
        (fun _ _ => Except.ok [1, 5])
        { max_results := -1, vectorizer := true, matrix := true,
          sections := [sample_a, sample_b] } "query" =
      Except.ok (res,
        { max_results := -1, vectorizer := true, matrix := true,
          sections := [sample_a, sample_b] }) ∧ ¬ res = [] :=
  answer_query_negative_cap (Except.ok []) (fun _ => Except.ok ())
    (fun _ _ => Except.ok [1, 5])
    { max_results := -1, vectorizer := true, matrix := true,
      sections := [sample_a, sample_b] } "query" [1, 5]
    rfl rfl rfl (by decide) (by decide) (by decide) (by decide) rfl

end Insights
